import Mathlib

/-!
Shallow embedding of the proximity-detection and location-tracking pipeline of
`src/services/geolocation.ts`: the Haversine distance calculator
(`calculateDistance`), the availability checks (`checkGeolocationAvailability`),
the proximity checker (`checkNearbyTasks`), the notifier (`notifyNearbyTasks`),
the watcher lifecycle (`startLocationTracking`, `stopLocationTracking`, the
per-sample significance filter of the watch callback) and the one-shot
`getCurrentLocationPromise`.

Modelling conventions: JavaScript floating point numbers are modelled as real
numbers (coordinates and distances) and integers (millisecond timestamps);
platform capabilities (geolocation API presence, protocol/hostname of the page,
permissions API, notification API) are fields of explicit environment records;
the remote store query is modelled by the list of task rows of the `tasks`
table together with an optional failure; thrown exceptions are `Except.error` /
an explicit error slot in the result.
-/

open Real

/-- JavaScript `Math.atan2(y, x)`: the angle of the point `(x, y)` in
`(-π, π]`, written out by quadrant; `atan2 0 0 = 0` as in JavaScript. -/
noncomputable def atan2 (y x : ℝ) : ℝ :=
  if 0 < x then arctan (y / x)
  else if x < 0 ∧ 0 ≤ y then arctan (y / x) + π
  else if x < 0 ∧ y < 0 then arctan (y / x) - π
  else if x = 0 ∧ 0 < y then π / 2
  else if x = 0 ∧ y < 0 then -(π / 2)
  else 0

/-- The intermediate value `a` of `calculateDistance` in `geolocation.ts`
(lines 27-34): `sin(Δφ/2)·sin(Δφ/2) + cos φ1 · cos φ2 · sin(Δλ/2)·sin(Δλ/2)`
where `φi = latᵢ·π/180`, `Δφ = (lat2-lat1)·π/180`, `Δλ = (lon2-lon1)·π/180`. -/
noncomputable def haversineA (lat1 lon1 lat2 lon2 : ℝ) : ℝ :=
  sin ((lat2 - lat1) * π / 180 / 2) * sin ((lat2 - lat1) * π / 180 / 2) +
    cos (lat1 * π / 180) * cos (lat2 * π / 180) *
      sin ((lon2 - lon1) * π / 180 / 2) * sin ((lon2 - lon1) * π / 180 / 2)

/-- `calculateDistance` of `geolocation.ts` (lines 25-38): Haversine distance
in meters, `R · c` with `R = 6371e3` and
`c = 2 · atan2(√a, √(1-a))` for `a = haversineA …`. -/
noncomputable def calculateDistance (lat1 lon1 lat2 lon2 : ℝ) : ℝ :=
  6371e3 *
    (2 * atan2 (sqrt (haversineA lat1 lon1 lat2 lon2))
      (sqrt (1 - haversineA lat1 lon1 lat2 lon2)))

theorem atan2_nonneg {y x : ℝ} (hy : 0 ≤ y) (hx : 0 ≤ x) : 0 ≤ atan2 y x := by
  unfold atan2
  split_ifs with h1 h2 h3 h4 h5
  · have h := arctan_strictMono.monotone (div_nonneg hy (le_of_lt h1))
    simpa [arctan_zero] using h
  · linarith [h2.1]
  · linarith [h3.1]
  · positivity
  · linarith [h5.2]
  · exact le_refl 0

theorem haversineA_self (lat lon : ℝ) : haversineA lat lon lat lon = 0 := by
  simp [haversineA]

theorem haversineA_symm (lat1 lon1 lat2 lon2 : ℝ) :
    haversineA lat1 lon1 lat2 lon2 = haversineA lat2 lon2 lat1 lon1 := by
  unfold haversineA
  have hsin : ∀ u v : ℝ, sin ((u - v) * π / 180 / 2)
      = -(sin ((v - u) * π / 180 / 2)) := by
    intro u v
    have h : (u - v) * π / 180 / 2 = -((v - u) * π / 180 / 2) := by ring
    rw [h, Real.sin_neg]
  rw [hsin lat1 lat2, hsin lon1 lon2]; ring

theorem calculateDistance_self (lat lon : ℝ) : calculateDistance lat lon lat lon = 0 := by
  simp [calculateDistance, haversineA_self, atan2, arctan_zero]

theorem calculateDistance_symm (lat1 lon1 lat2 lon2 : ℝ) :
    calculateDistance lat1 lon1 lat2 lon2 = calculateDistance lat2 lon2 lat1 lon1 := by
  unfold calculateDistance
  rw [haversineA_symm]

theorem calculateDistance_nonneg (lat1 lon1 lat2 lon2 : ℝ) :
    0 ≤ calculateDistance lat1 lon1 lat2 lon2 := by
  unfold calculateDistance
  have h := atan2_nonneg (sqrt_nonneg (haversineA lat1 lon1 lat2 lon2))
    (sqrt_nonneg (1 - haversineA lat1 lon1 lat2 lon2))
  positivity

theorem haversineA_one_degree (t lon : ℝ) :
    haversineA t lon (t + 1) lon = sin (π / 360) * sin (π / 360) := by
  unfold haversineA
  rw [show (t + 1 - t) * π / 180 / 2 = π / 360 from by ring,
    show (lon - lon) * π / 180 / 2 = 0 from by ring, Real.sin_zero]
  ring

/-- A pair of points one degree of latitude apart on the same meridian is at
Haversine distance exactly `R·π/180` meters, for every base latitude and
longitude (the longitude term of `a` vanishes, so the base point is
irrelevant). -/
theorem calculateDistance_one_degree (t lon : ℝ) :
    calculateDistance t lon (t + 1) lon = 6371e3 * (π / 180) := by
  unfold calculateDistance
  rw [haversineA_one_degree]
  have hpi := Real.pi_pos
  have hθpos : (0 : ℝ) < π / 360 := by linarith
  have hθlt : π / 360 < π / 2 := by linarith
  have hsin_nonneg : 0 ≤ sin (π / 360) :=
    Real.sin_nonneg_of_nonneg_of_le_pi (le_of_lt hθpos) (by linarith)
  have hcos_pos : 0 < cos (π / 360) :=
    Real.cos_pos_of_mem_Ioo ⟨by linarith, hθlt⟩
  have hs : sqrt (sin (π / 360) * sin (π / 360)) = sin (π / 360) :=
    Real.sqrt_mul_self hsin_nonneg
  have hcos_sq : 1 - sin (π / 360) * sin (π / 360) = cos (π / 360) * cos (π / 360) := by
    have hsc := Real.sin_sq_add_cos_sq (π / 360)
    nlinarith [hsc]
  have hc : sqrt (1 - sin (π / 360) * sin (π / 360)) = cos (π / 360) := by
    rw [hcos_sq]; exact Real.sqrt_mul_self (le_of_lt hcos_pos)
  rw [hs, hc]
  unfold atan2
  rw [if_pos hcos_pos, ← Real.tan_eq_sin_div_cos,
    Real.arctan_tan (by linarith) hθlt]
  ring

theorem one_degree_distance_gt_500 : (500 : ℝ) < 6371e3 * (π / 180) := by
  nlinarith [Real.pi_gt_three]

theorem one_degree_distance_tolerance :
    |6371e3 * (π / 180) - 111320| ≤ 111320 / 100 := by
  rw [abs_le]
  constructor
  · nlinarith [Real.pi_gt_d4]
  · nlinarith [Real.pi_lt_d4]

/-! ## Data model

`Location` is the interface of `geolocation.ts` (latitude, longitude,
timestamp); `Task` is a row of the `tasks` table with the fields the module
reads (`latitude`, `longitude`, `completed`, and `task`, the text used as the
notification body); `WatcherState` is the module-scope mutable state
(`watchId`, `lastLocation`). -/

structure Location where
  latitude : ℝ
  longitude : ℝ
  timestamp : ℤ

/-- A row of the `tasks` table (called `TaskRow` here because `Task` is taken
by the Lean core library). -/
structure TaskRow where
  id : ℕ
  task : String
  latitude : ℝ
  longitude : ℝ
  completed : Bool

structure WatcherState where
  watchId : Option ℕ
  lastLocation : Option Location

inductive PermissionState where
  | granted
  | prompt
  | denied
deriving DecidableEq

inductive NotifyPermission where
  | default
  | granted
  | denied
deriving DecidableEq

/-- The browser facilities the module consults: geolocation API presence,
page protocol and hostname (for the secure-context check), permissions API
presence and the outcome of `navigator.permissions.query({name:'geolocation'})`
(`Except.error` models a rejected query), notification API presence and
`Notification.permission`. -/
structure BrowserEnv where
  hasGeolocation : Bool
  protocol : String
  hostname : String
  hasPermissionsApi : Bool
  permissionQuery : Except Unit PermissionState
  hasNotificationApi : Bool
  notificationPermission : NotifyPermission

/-! ## Availability checks (`checkGeolocationAvailability`, lines 43-65)

The permission-state check of the source sits inside a `try { … } catch
(error) { console.warn(…) }` block: both a rejected `permissions.query` call
AND the `throw new Error('Location access is blocked…')` raised for a
`denied` state are caught by that same `catch`, which only warns. The
`geoPermissionProbe` definition is the body of the `try`; its error is always
swallowed by `checkGeolocationAvailability`. -/

def geoPermissionProbe (env : BrowserEnv) : Except String Unit :=
  match env.permissionQuery with
  | .error _ => .error "permissions query rejected"
  | .ok st =>
    if st = PermissionState.denied then
      .error "Location access is blocked. Please reset location permissions and refresh the page."
    else .ok ()

def checkGeolocationAvailability (env : BrowserEnv) : Except String Unit :=
  if env.hasGeolocation = false then
    .error "Geolocation is not supported by this browser. Please use a modern browser with geolocation support."
  else if env.protocol ≠ "https:" ∧ env.hostname ≠ "localhost" then
    .error "Geolocation requires a secure connection (HTTPS). Please access this site using HTTPS."
  else if env.hasPermissionsApi then
    match geoPermissionProbe env with
    | .error _ => .ok ()
    | .ok _ => .ok ()
  else .ok ()

/-! ## Notifier (`notifyNearbyTasks`, lines 142-153) -/

structure AppAlert where
  title : String
  body : String
  icon : String
deriving DecidableEq

/-- The notification constructed for one task: title `Nearby Task`, body the
task's `task` text, icon `/vite.svg`. -/
def taskAlert (t : TaskRow) : AppAlert :=
  ⟨"Nearby Task", t.task, "/vite.svg"⟩

/-- `notifyNearbyTasks`: returns the list of notifications emitted. If the
`Notification` API is absent, none; otherwise, for each task in order, one
notification when permission is `granted`. -/
def notifyNearbyTasks (env : BrowserEnv) (tasks : List TaskRow) : List AppAlert :=
  if env.hasNotificationApi = false then []
  else
    tasks.filterMap fun t =>
      if env.notificationPermission = NotifyPermission.granted then
        some (taskAlert t)
      else none

/-! ## Proximity checker (`checkNearbyTasks`, lines 112-137)

The supabase query `from('tasks').select('*').eq('completed', false)` is
modelled by `fetchOpenTasks` over the table rows `db`, with `storeFailure`
the optional error of the response; the `catch` of `checkNearbyTasks` maps a
failure to a logged error and no matches, never an exception. -/

inductive StoreResponse where
  | rows (tasks : List TaskRow)
  | failure (msg : String)

def fetchOpenTasks (db : List TaskRow) (storeFailure : Option String) : StoreResponse :=
  match storeFailure with
  | some m => .failure m
  | none => .rows (db.filter fun t => t.completed == false)

/-- Observable outcome of one `checkNearbyTasks` call: the nearby tasks it
computed, the notifications emitted, and the error logged by its `catch` (the
function itself returns normally in every case). -/
structure CheckResult where
  nearby : List TaskRow
  notifications : List AppAlert
  loggedError : Option String

noncomputable def checkNearbyTasks (env : BrowserEnv) (db : List TaskRow)
    (storeFailure : Option String) (location : Location) : CheckResult :=
  match fetchOpenTasks db storeFailure with
  | .failure m => ⟨[], [], some m⟩
  | .rows tasks =>
    let nearbyTasks := tasks.filter fun t =>
      decide (calculateDistance location.latitude location.longitude
        t.latitude t.longitude ≤ 500)
    ⟨nearbyTasks,
      if nearbyTasks.length ≠ 0 then notifyNearbyTasks env nearbyTasks else [],
      none⟩

/-! ## Watcher (`startLocationTracking` lines 158-197, `stopLocationTracking`
lines 202-208)

`handlePositionUpdate` is the `watchPosition` callback: the significance
filter `!lastLocation || distance > 10 || Δt > 60000` decides whether
`lastLocation` is overwritten and `checkNearbyTasks` fired; the second
component is `some r` when the proximity check ran with outcome `r`, `none`
when the sample was filtered out. -/

noncomputable def handlePositionUpdate (env : BrowserEnv) (db : List TaskRow)
    (storeFailure : Option String) (s : WatcherState) (pos : Location) :
    WatcherState × Option CheckResult :=
  match s.lastLocation with
  | none =>
    (⟨s.watchId, some pos⟩, some (checkNearbyTasks env db storeFailure pos))
  | some last =>
    if calculateDistance last.latitude last.longitude pos.latitude pos.longitude > 10
        ∨ pos.timestamp - last.timestamp > 60000 then
      (⟨s.watchId, some pos⟩, some (checkNearbyTasks env db storeFailure pos))
    else (s, none)

/-- `startLocationTracking`: runs `checkGeolocationAvailability`; on error the
`catch` logs and rethrows (second component `some errorMessage`) leaving the
module state untouched; on success `watchPosition` is called and its watch id
stored (`newWatchId` models the id the platform returns). -/
def startLocationTracking (env : BrowserEnv) (newWatchId : ℕ) (s : WatcherState) :
    WatcherState × Option String :=
  match checkGeolocationAvailability env with
  | .error e => (s, some e)
  | .ok _ => (⟨some newWatchId, s.lastLocation⟩, none)

/-- `stopLocationTracking`: when a watch is active, `clearWatch` and null out
`watchId` and `lastLocation`; otherwise nothing happens. Total — never
throws. -/
def stopLocationTracking (s : WatcherState) : WatcherState :=
  match s.watchId with
  | some _ => ⟨none, none⟩
  | none => s

/-! ## One-shot request (`getCurrentLocationPromise`, lines 213-238) -/

inductive GeoErrorCode where
  | permissionDenied
  | positionUnavailable
  | timedOut
deriving DecidableEq

/-- The message thrown by `handleGeolocationError` (lines 70-107):
`message + "\n\n" + resolution` per error code. -/
def handleGeolocationErrorMessage (c : GeoErrorCode) : String :=
  match c with
  | .permissionDenied =>
    "Location access was denied. This might be due to:\n1. Browser location permissions are blocked\n2. Device location services are disabled\n3. The site's permissions were previously denied\n\nTo fix:\n1. Click the location icon in your browser's address bar and allow access\n2. Check your device's location settings\n3. Clear your browser permissions and try again"
  | .positionUnavailable =>
    "Unable to determine your location. The GPS signal might be weak or unavailable.\n\nPlease try:\n1. Moving to an area with better GPS coverage\n2. Checking your device's location settings"
  | .timedOut =>
    "Location request timed out. The server took too long to respond.\n\nPlease try again. If the problem persists, check your internet connection."

/-- How one `getCurrentLocationPromise` call ends up, as observed by its
caller: `settled = some (Except.ok pos)` when the promise resolved,
`settled = some (Except.error e)` when `reject` was called, and
`settled = none` when the promise never settles. `platformCalled` records
whether `navigator.geolocation.getCurrentPosition` was invoked, and
`uncaughtThrow` the message of an exception thrown inside a raw platform
callback (which escapes to the platform, not to the caller). -/
structure OneShotOutcome where
  settled : Option (Except String Location)
  platformCalled : Bool
  uncaughtThrow : Option String

/-- `getCurrentLocationPromise`: rejects before touching the platform when the
geolocation API is absent or the context insecure; otherwise calls
`getCurrentPosition` (whose outcome is the `platform` argument) and resolves
with the one sample on success. On a platform error the source passes the
THROWING `handleGeolocationError` directly as the raw error callback (line
234): `reject` is never invoked on that path, so the promise never settles —
the typed message escapes as an uncaught exception inside the callback. -/
def getCurrentLocationPromise (env : BrowserEnv)
    (platform : Except GeoErrorCode Location) : OneShotOutcome :=
  if env.hasGeolocation = false then
    ⟨some (.error "Geolocation is not supported by this browser. Please use a modern browser with geolocation support."), false, none⟩
  else if env.protocol ≠ "https:" ∧ env.hostname ≠ "localhost" then
    ⟨some (.error "Geolocation requires a secure connection (HTTPS). Please access this site using HTTPS."), false, none⟩
  else
    match platform with
    | .ok pos => ⟨some (.ok pos), true, none⟩
    | .error c => ⟨none, true, some (handleGeolocationErrorMessage c)⟩

/-! ## Claim theorems -/

/-- C6: `calculateDistance` is symmetric in its two coordinate pairs, zero on
equal pairs, and non-negative. (Purity and determinism hold by construction:
the embedding is a mathematical function of its four arguments.) -/
theorem calculateDistance_algebraic_properties :
    (∀ lat1 lon1 lat2 lon2 : ℝ,
      calculateDistance lat1 lon1 lat2 lon2 = calculateDistance lat2 lon2 lat1 lon1)
    ∧ (∀ lat lon : ℝ, calculateDistance lat lon lat lon = 0)
    ∧ (∀ lat1 lon1 lat2 lon2 : ℝ, 0 ≤ calculateDistance lat1 lon1 lat2 lon2) :=
  ⟨calculateDistance_symm, calculateDistance_self, calculateDistance_nonneg⟩

/-- C7: every pair of coordinates one degree of latitude apart on the same
meridian (in particular at the equator) is at computed distance exactly
`6371e3 · π/180` meters, which is within 1% of 111320 meters. -/
theorem one_degree_latitude_distance :
    ∀ t lon : ℝ,
      calculateDistance t lon (t + 1) lon = 6371e3 * (π / 180)
      ∧ |calculateDistance t lon (t + 1) lon - 111320| ≤ 111320 / 100 := by
  intro t lon
  refine ⟨calculateDistance_one_degree t lon, ?_⟩
  rw [calculateDistance_one_degree]
  exact one_degree_distance_tolerance

theorem checkNearbyTasks_mem_nearby (env : BrowserEnv) (db : List TaskRow)
    (loc : Location) (t : TaskRow) :
    t ∈ (checkNearbyTasks env db none loc).nearby ↔
      t ∈ db ∧ t.completed = false ∧
        calculateDistance loc.latitude loc.longitude t.latitude t.longitude ≤ 500 := by
  simp [checkNearbyTasks, fetchOpenTasks, List.mem_filter, and_assoc]
  tauto

/-- C2: on a successful store read, the nearby set of `checkNearbyTasks` is
exactly the incomplete task rows within 500 meters of the probe; and for
three incomplete tasks at distances ≤ 500, ≤ 500 and > 500, it is exactly the
first two. -/
theorem checkNearbyTasks_correct :
    (∀ env db loc (t : TaskRow),
      t ∈ (checkNearbyTasks env db none loc).nearby ↔
        t ∈ db ∧ t.completed = false ∧
          calculateDistance loc.latitude loc.longitude t.latitude t.longitude ≤ 500)
    ∧ (∀ env loc (t1 t2 t3 : TaskRow),
        t1.completed = false → t2.completed = false → t3.completed = false →
        calculateDistance loc.latitude loc.longitude t1.latitude t1.longitude ≤ 500 →
        calculateDistance loc.latitude loc.longitude t2.latitude t2.longitude ≤ 500 →
        500 < calculateDistance loc.latitude loc.longitude t3.latitude t3.longitude →
        (checkNearbyTasks env [t1, t2, t3] none loc).nearby = [t1, t2]) := by
  refine ⟨checkNearbyTasks_mem_nearby, ?_⟩
  intro env loc t1 t2 t3 h1 h2 h3 hd1 hd2 hd3
  simp [checkNearbyTasks, fetchOpenTasks, h1, h2, h3, hd1, hd2, not_le.mpr hd3]

/-- Witness for C2 at a concrete probe and store: two tasks at the probe
itself (distance 0) and one a degree of latitude away (distance > 500). -/
theorem checkNearbyTasks_correct_witness :
    (checkNearbyTasks
      ⟨true, "https:", "localhost", false, Except.ok PermissionState.granted,
        true, NotifyPermission.granted⟩
      [⟨1, "buy milk", 0, 0, false⟩, ⟨2, "post letter", 0, 0, false⟩,
        ⟨3, "far away", 1, 0, false⟩]
      none ⟨0, 0, 0⟩).nearby
      = [⟨1, "buy milk", 0, 0, false⟩, ⟨2, "post letter", 0, 0, false⟩] := by
  have hd3 : (500 : ℝ) < calculateDistance 0 0 1 0 := by
    have h := calculateDistance_one_degree 0 0
    rw [show ((0 : ℝ) + 1) = 1 by norm_num] at h
    rw [h]; exact one_degree_distance_gt_500
  have hd0 : calculateDistance (0 : ℝ) 0 0 0 ≤ 500 := by
    rw [calculateDistance_self]; norm_num
  exact checkNearbyTasks_correct.2 _ ⟨0, 0, 0⟩ _ _ _ rfl rfl rfl hd0 hd0 hd3

/-- C3: a failed store read makes `checkNearbyTasks` log the error and yield
no matches and no notifications, returning normally (the embedding is a total
function, so no exception reaches the watcher); and the watcher state
produced by the update callback is identical to the success case — in
particular the subscription (`watchId`) is untouched. -/
theorem checkNearbyTasks_store_failure :
    ∀ env db msg loc s pos,
      checkNearbyTasks env db (some msg) loc
          = ⟨[], [], some msg⟩
      ∧ (handlePositionUpdate env db (some msg) s pos).1
          = (handlePositionUpdate env db none s pos).1
      ∧ (handlePositionUpdate env db (some msg) s pos).1.watchId = s.watchId := by
  intro env db msg loc s pos
  rcases s with ⟨wid, lastl⟩
  refine ⟨rfl, ?_, ?_⟩
  · cases lastl with
    | none => rfl
    | some last =>
      simp only [handlePositionUpdate]
      split_ifs <;> rfl
  · cases lastl with
    | none => rfl
    | some last =>
      simp only [handlePositionUpdate]
      split_ifs <;> rfl

/-- C1: with a prior accepted sample, a new sample strictly less than 10
meters away and strictly less than 60 seconds newer is filtered — the watcher
state is unchanged and `checkNearbyTasks` is not invoked; and a sample at the
same coordinate arriving strictly more than 60000 ms later does trigger the
proximity check and becomes the new last-known-location. -/
theorem significanceFilter_correct :
    (∀ env db storeFailure s (last pos : Location), s.lastLocation = some last →
      calculateDistance last.latitude last.longitude pos.latitude pos.longitude < 10 →
      pos.timestamp - last.timestamp < 60000 →
      handlePositionUpdate env db storeFailure s pos = (s, none))
    ∧ (∀ env db storeFailure s (last pos : Location), s.lastLocation = some last →
      pos.latitude = last.latitude → pos.longitude = last.longitude →
      pos.timestamp - last.timestamp > 60000 →
      (handlePositionUpdate env db storeFailure s pos).2
          = some (checkNearbyTasks env db storeFailure pos)
      ∧ (handlePositionUpdate env db storeFailure s pos).1.lastLocation = some pos) := by
  constructor
  · intro env db storeFailure s last pos hlast hd ht
    rcases s with ⟨wid, lastl⟩
    simp only at hlast
    subst hlast
    have hcond : ¬(calculateDistance last.latitude last.longitude
        pos.latitude pos.longitude > 10 ∨ pos.timestamp - last.timestamp > 60000) := by
      push_neg
      exact ⟨le_of_lt hd, le_of_lt ht⟩
    simp [handlePositionUpdate, hcond]
  · intro env db storeFailure s last pos hlast hx hy ht
    rcases s with ⟨wid, lastl⟩
    simp only at hlast
    subst hlast
    have hcond : calculateDistance last.latitude last.longitude
        pos.latitude pos.longitude > 10 ∨ pos.timestamp - last.timestamp > 60000 :=
      Or.inr ht
    simp [handlePositionUpdate, hcond]

/-- Witness for C1: prior sample at `(0,0,t=0)`; the sample `(0,0,t=1000)`
(distance 0 < 10 m, 1 s later) is filtered, while `(0,0,t=61000)` (same
coordinate, 61 s later) triggers a check and replaces the last location. -/
theorem significanceFilter_correct_witness :
    (handlePositionUpdate
        ⟨true, "https:", "localhost", false, Except.ok PermissionState.granted,
          true, NotifyPermission.granted⟩ [] none
        ⟨some 1, some ⟨0, 0, 0⟩⟩ ⟨0, 0, 1000⟩
      = (⟨some 1, some ⟨0, 0, 0⟩⟩, none))
    ∧ ((handlePositionUpdate
        ⟨true, "https:", "localhost", false, Except.ok PermissionState.granted,
          true, NotifyPermission.granted⟩ [] none
        ⟨some 1, some ⟨0, 0, 0⟩⟩ ⟨0, 0, 61000⟩).2
      = some (checkNearbyTasks
          ⟨true, "https:", "localhost", false, Except.ok PermissionState.granted,
            true, NotifyPermission.granted⟩ [] none ⟨0, 0, 61000⟩)
      ∧ (handlePositionUpdate
          ⟨true, "https:", "localhost", false, Except.ok PermissionState.granted,
            true, NotifyPermission.granted⟩ [] none
          ⟨some 1, some ⟨0, 0, 0⟩⟩ ⟨0, 0, 61000⟩).1.lastLocation
        = some ⟨0, 0, 61000⟩) := by
  constructor
  · exact significanceFilter_correct.1 _ [] none _ ⟨0, 0, 0⟩ ⟨0, 0, 1000⟩ rfl
      (by show calculateDistance (0 : ℝ) 0 0 0 < 10
          rw [calculateDistance_self]; norm_num)
      (by decide)
  · exact significanceFilter_correct.2 _ [] none _ ⟨0, 0, 0⟩ ⟨0, 0, 61000⟩ rfl
      rfl rfl (by decide)

/-- C10: the significance thresholds are exclusive — a sample at distance
≤ 10 m (in particular exactly 10 m) and at most 60000 ms newer (in particular
exactly 60000 ms) is rejected, leaving the state unchanged with no check;
and a check runs exactly when no prior sample exists, or the distance is
strictly greater than 10, or the elapsed time strictly greater than 60000. -/
theorem significanceFilter_boundary :
    (∀ env db storeFailure s (last pos : Location), s.lastLocation = some last →
      calculateDistance last.latitude last.longitude pos.latitude pos.longitude ≤ 10 →
      pos.timestamp - last.timestamp ≤ 60000 →
      handlePositionUpdate env db storeFailure s pos = (s, none))
    ∧ (∀ env db storeFailure s (pos : Location),
      (handlePositionUpdate env db storeFailure s pos).2.isSome = true ↔
        (s.lastLocation = none ∨ ∃ last, s.lastLocation = some last ∧
          (calculateDistance last.latitude last.longitude pos.latitude pos.longitude > 10
            ∨ pos.timestamp - last.timestamp > 60000))) := by
  constructor
  · intro env db storeFailure s last pos hlast hd ht
    rcases s with ⟨wid, lastl⟩
    simp only at hlast
    subst hlast
    have hcond : ¬(calculateDistance last.latitude last.longitude
        pos.latitude pos.longitude > 10 ∨ pos.timestamp - last.timestamp > 60000) := by
      push_neg
      exact ⟨hd, ht⟩
    simp [handlePositionUpdate, hcond]
  · intro env db storeFailure s pos
    rcases s with ⟨wid, lastl⟩
    cases lastl with
    | none => simp [handlePositionUpdate]
    | some last =>
      by_cases hcond : calculateDistance last.latitude last.longitude
          pos.latitude pos.longitude > 10 ∨ pos.timestamp - last.timestamp > 60000
      · simp [handlePositionUpdate, hcond]
      · simp [handlePositionUpdate, hcond]

/-- Witness for C10: a sample at the same coordinate (distance 0 ≤ 10) exactly
60000 ms after the prior one is rejected. -/
theorem significanceFilter_boundary_witness :
    handlePositionUpdate
        ⟨true, "https:", "localhost", false, Except.ok PermissionState.granted,
          true, NotifyPermission.granted⟩ [] none
        ⟨some 1, some ⟨0, 0, 0⟩⟩ ⟨0, 0, 60000⟩
      = (⟨some 1, some ⟨0, 0, 0⟩⟩, none) :=
  significanceFilter_boundary.1 _ [] none _ ⟨0, 0, 0⟩ ⟨0, 0, 60000⟩ rfl
    (by show calculateDistance (0 : ℝ) 0 0 0 ≤ 10
        rw [calculateDistance_self]; norm_num)
    (by decide)

/-- C5: on every state satisfying the module invariant (no `lastLocation`
without a watch), `stopLocationTracking` yields the fully cleared `Stopped`
state — subscription cancelled, last-known-location cleared — and it is
idempotent: a second `stop` is a no-op. The embedding is a total function, so
no call throws. -/
theorem stopLocationTracking_correct :
    ∀ s : WatcherState, (s.watchId = none → s.lastLocation = none) →
      stopLocationTracking s = ⟨none, none⟩
      ∧ stopLocationTracking (stopLocationTracking s) = stopLocationTracking s := by
  intro s h
  rcases s with ⟨wid, lastl⟩
  cases wid with
  | some w => exact ⟨rfl, rfl⟩
  | none =>
    have hl : lastl = none := h rfl
    subst hl
    exact ⟨rfl, rfl⟩

/-- Witness for C5 on an active watcher with a stored last location. -/
theorem stopLocationTracking_correct_witness :
    stopLocationTracking ⟨some 7, some ⟨0, 0, 0⟩⟩ = ⟨none, none⟩
    ∧ stopLocationTracking (stopLocationTracking ⟨some 7, some ⟨0, 0, 0⟩⟩)
        = stopLocationTracking ⟨some 7, some ⟨0, 0, 0⟩⟩ :=
  stopLocationTracking_correct ⟨some 7, some ⟨0, 0, 0⟩⟩
    (fun h => Option.noConfusion h)

theorem notifyNearbyTasks_granted_eq (env : BrowserEnv) (tasks : List TaskRow)
    (hapi : env.hasNotificationApi = true)
    (hperm : env.notificationPermission = NotifyPermission.granted) :
    notifyNearbyTasks env tasks = tasks.map taskAlert := by
  simp only [notifyNearbyTasks, hapi, hperm]
  induction tasks with
  | nil => rfl
  | cons hd tl ih => simpa using ih

/-- C9: with the notification API present and permission granted,
`notifyNearbyTasks` emits exactly one notification per task, in order, with
the task's text as body; with the API absent it emits none; and it is
stateless, so any task contained in the list handed to it is notified on
every such call — no de-duplication across calls. -/
theorem notifyNearbyTasks_correct :
    ∀ env (tasks : List TaskRow),
      (env.hasNotificationApi = true →
        env.notificationPermission = NotifyPermission.granted →
        notifyNearbyTasks env tasks = tasks.map taskAlert
        ∧ (notifyNearbyTasks env tasks).map AppAlert.body = tasks.map TaskRow.task)
      ∧ (env.hasNotificationApi = false → notifyNearbyTasks env tasks = [])
      ∧ (∀ t ∈ tasks, env.hasNotificationApi = true →
          env.notificationPermission = NotifyPermission.granted →
          taskAlert t ∈ notifyNearbyTasks env tasks) := by
  intro env tasks
  refine ⟨fun hapi hperm => ?_, fun hapi => by simp [notifyNearbyTasks, hapi],
    fun t ht hapi hperm => ?_⟩
  · refine ⟨notifyNearbyTasks_granted_eq env tasks hapi hperm, ?_⟩
    rw [notifyNearbyTasks_granted_eq env tasks hapi hperm, List.map_map]
    rfl
  · rw [notifyNearbyTasks_granted_eq env tasks hapi hperm]
    exact List.mem_map_of_mem taskAlert ht

/-- Witness for C9: one concrete task notifies (body equal to its text) with
the API present and granted, and yields nothing when the API is absent. -/
theorem notifyNearbyTasks_correct_witness :
    notifyNearbyTasks
        ⟨true, "https:", "localhost", false, Except.ok PermissionState.granted,
          true, NotifyPermission.granted⟩ [⟨1, "water plants", 0, 0, false⟩]
      = [⟨1, "water plants", 0, 0, false⟩].map taskAlert
    ∧ taskAlert ⟨1, "water plants", 0, 0, false⟩ ∈
        notifyNearbyTasks
          ⟨true, "https:", "localhost", false, Except.ok PermissionState.granted,
            true, NotifyPermission.granted⟩ [⟨1, "water plants", 0, 0, false⟩]
    ∧ notifyNearbyTasks
        ⟨true, "https:", "localhost", false, Except.ok PermissionState.granted,
          false, NotifyPermission.granted⟩ [⟨1, "water plants", 0, 0, false⟩]
      = [] :=
  ⟨((notifyNearbyTasks_correct _ _).1 rfl rfl).1,
    (notifyNearbyTasks_correct _ _).2.2 _ (by simp) rfl rfl,
    (notifyNearbyTasks_correct _ _).2.1 rfl⟩

/-- C4 (code bug): with the geolocation API present, a secure (`https:`)
context, and the permissions API resolving to state `denied`,
`startLocationTracking` does NOT reject. In the source, the
`throw new Error("Location access is blocked…")` for the denied state sits
inside the same `try` whose `catch` only logs a warning, so the error is
swallowed: the subscription is created (`watchId` set) and no error
surfaces, contradicting the claim and the unreachable error message the
source itself constructs for this case. -/
theorem startLocationTracking_denied_not_rejected :
    startLocationTracking
        ⟨true, "https:", "example.com", true, Except.ok PermissionState.denied,
          true, NotifyPermission.granted⟩ 1 ⟨none, none⟩
      = (⟨some 1, none⟩, none) := by
  rfl

/-- C8 counterexample, refuting the claim at two concrete inputs. First: the
claim requires `getCurrentLocation()` to reject, without calling the
platform, whenever permission is explicitly denied; in an environment with
the geolocation API present, a secure context and permission state `denied`,
it calls the platform (`platformCalled = true`) and resolves with its sample.
Second: the claim requires every call to resolve or reject with a typed
error; on a platform error the promise never settles (`settled = none`) —
the throwing `handleGeolocationError` is the raw error callback, so `reject`
is never invoked and the message escapes as an uncaught exception. -/
theorem getCurrentLocation_denied_calls_platform :
    getCurrentLocationPromise
        ⟨true, "https:", "example.com", true, Except.ok PermissionState.denied,
          true, NotifyPermission.granted⟩ (Except.ok ⟨0, 0, 5⟩)
      = ⟨some (Except.ok ⟨0, 0, 5⟩), true, none⟩
    ∧ getCurrentLocationPromise
        ⟨true, "https:", "example.com", true, Except.ok PermissionState.denied,
          true, NotifyPermission.granted⟩
        (Except.error GeoErrorCode.positionUnavailable)
      = ⟨none, true,
          some (handleGeolocationErrorMessage GeoErrorCode.positionUnavailable)⟩ :=
  ⟨rfl, rfl⟩

/-- C8 (amended): `getCurrentLocationPromise` rejects early — without calling
the platform — exactly in the environments where `start()`'s availability
check (`checkGeolocationAvailability`) rejects, namely geolocation API absent
or insecure context (permission `denied` causes rejection in neither, its
error being swallowed by the availability check's own `catch`); on early
rejection the promise rejects with that error; when the platform is called
and delivers a sample the promise resolves with exactly that one sample; and
on a platform error the promise never settles — the typed
`handleGeolocationError` message is thrown inside the raw error callback
instead of rejecting the promise. -/
theorem getCurrentLocation_matches_start_preconditions :
    ∀ env platform,
      ((getCurrentLocationPromise env platform).platformCalled = false ↔
        ∃ e, checkGeolocationAvailability env = Except.error e)
      ∧ ((getCurrentLocationPromise env platform).platformCalled = false →
          ∃ e, (getCurrentLocationPromise env platform).settled
            = some (Except.error e))
      ∧ (∀ pos, platform = Except.ok pos →
          (getCurrentLocationPromise env platform).platformCalled = true →
          (getCurrentLocationPromise env platform).settled
            = some (Except.ok pos))
      ∧ (∀ c, platform = Except.error c →
          (getCurrentLocationPromise env platform).platformCalled = true →
          (getCurrentLocationPromise env platform).settled = none
          ∧ (getCurrentLocationPromise env platform).uncaughtThrow
              = some (handleGeolocationErrorMessage c)) := by
  intro env platform
  by_cases hg : env.hasGeolocation = false
  · refine ⟨?_, ?_, ?_, ?_⟩
    · simp [getCurrentLocationPromise, checkGeolocationAvailability, hg]
    · intro _
      exact ⟨"Geolocation is not supported by this browser. Please use a modern browser with geolocation support.",
        by simp [getCurrentLocationPromise, hg]⟩
    · intro pos hpos hcall
      simp [getCurrentLocationPromise, hg] at hcall
    · intro c hc hcall
      simp [getCurrentLocationPromise, hg] at hcall
  · by_cases hsec : env.protocol ≠ "https:" ∧ env.hostname ≠ "localhost"
    · refine ⟨?_, ?_, ?_, ?_⟩
      · simp [getCurrentLocationPromise, checkGeolocationAvailability, hg, hsec]
      · intro _
        exact ⟨"Geolocation requires a secure connection (HTTPS). Please access this site using HTTPS.",
          by simp [getCurrentLocationPromise, hg, hsec]⟩
      · intro pos hpos hcall
        simp [getCurrentLocationPromise, hg, hsec] at hcall
      · intro c hc hcall
        simp [getCurrentLocationPromise, hg, hsec] at hcall
    · have hok : checkGeolocationAvailability env = Except.ok () := by
        simp only [checkGeolocationAvailability, hg, hsec, if_false, if_neg]
        by_cases hp : env.hasPermissionsApi
        · simp only [hp, if_true]
          cases hpr : geoPermissionProbe env <;> rfl
        · simp [hp]
      refine ⟨?_, ?_, ?_, ?_⟩
      · constructor
        · intro hfalse
          cases platform <;> simp [getCurrentLocationPromise, hg, hsec] at hfalse
        · rintro ⟨e, he⟩
          rw [hok] at he
          exact Except.noConfusion he
      · intro hfalse
        cases platform <;> simp [getCurrentLocationPromise, hg, hsec] at hfalse
      · intro pos hpos _
        subst hpos
        simp [getCurrentLocationPromise, hg, hsec]
      · intro c hc _
        subst hc
        simp [getCurrentLocationPromise, hg, hsec]

/-- Witness for the amended C8 on an insecure-context environment: the
promise does not call the platform and rejects. -/
theorem getCurrentLocation_matches_start_preconditions_witness :
    ∃ e, (getCurrentLocationPromise
        ⟨true, "http:", "example.com", false, Except.error (), true,
          NotifyPermission.default⟩ (Except.ok ⟨0, 0, 0⟩)).settled
      = some (Except.error e) :=
  (getCurrentLocation_matches_start_preconditions
      ⟨true, "http:", "example.com", false, Except.error (), true,
        NotifyPermission.default⟩ (Except.ok ⟨0, 0, 0⟩)).2.1 rfl
